import Mathlib

/-!
# Capturer: the floating image window (`src/core/imagewindow.cpp`)

A shallow embedding of `ImageWindow`, the frameless preview window of the
Capturer screenshot utility, together with the properties of its event
handlers.

Conventions of the embedding.

* `qreal` fields (`scale_`, `opacity_`) are exact rationals; the constants
  `0.01` and `1.00` are `1/100` and `1`.
* `int` coordinates are unbounded integers: they are screen coordinates and
  pixmap sizes, far from the range where 32-bit arithmetic wraps.
* The toolkit primitives used by the handlers (`QPoint`, `QSize`, `QRect`,
  `qRound`, `QString::contains`, `QFileInfo::suffix`, `QWidget::move`,
  `resize`, `setGeometry`) are modelled by their documented Qt 5 behaviour.
  The window is frameless, so `pos()` is the top-left corner of `geometry()`.
* `SHANDOW_R_`, the shadow radius declared in a header outside
  `imagewindow.cpp`, is a parameter `R` of every handler that uses it.
* Results the toolkit hands to a handler (the loaded pixmap of `open` and
  `dropEvent`, the chosen file name) are arguments of the handler.
* A handler is the function written in `imagewindow.cpp`. Events the toolkit
  dispatches as a consequence of a handler (`moveEvent` after the window moved,
  `paintEvent` after `update()`) are further handler calls of the sequence.
  Size limits a window manager may impose on `resize` and `setGeometry` are not
  modelled: `geometry()` is the rectangle last requested.
-/

namespace Capturer

/-! ## Toolkit geometry -/

/-- Integer point, `QPoint`. -/
structure QPoint where
  x : Int
  y : Int
  deriving DecidableEq, Repr

/-- Integer size, `QSize`. -/
structure QSize where
  wd : Int
  ht : Int
  deriving DecidableEq, Repr

/-- Integer rectangle stored by its corner coordinates, `QRect`
(`x2`, `y2` are the coordinates of the last column and row). -/
structure QRect where
  x1 : Int
  y1 : Int
  x2 : Int
  y2 : Int
  deriving DecidableEq, Repr

/-- The function `qRound(qreal)`: round half up; on the non-negative values a
size times a scale produces this is `int(d + 0.5)`. -/
def qRound (d : ℚ) : Int := Int.floor (d + 1 / 2)

/-- Point addition, `operator+(QPoint, QPoint)`. -/
def QPoint.add (p q : QPoint) : QPoint := ⟨p.x + q.x, p.y + q.y⟩

/-- Point subtraction, `operator-(QPoint, QPoint)`. -/
def QPoint.sub (p q : QPoint) : QPoint := ⟨p.x - q.x, p.y - q.y⟩

/-- Size addition, `operator+(QSize, QSize)`. -/
def QSize.add (s t : QSize) : QSize := ⟨s.wd + t.wd, s.ht + t.ht⟩

/-- Size scaling, `operator*(QSize, qreal)`: each dimension is rounded. -/
def QSize.mul (s : QSize) (c : ℚ) : QSize := ⟨qRound (s.wd * c), qRound (s.ht * c)⟩

/-- The constructor `QRect(const QPoint &topLeft, const QSize &size)`. -/
def QRect.fromTopLeftSize (topLeft : QPoint) (size : QSize) : QRect :=
  ⟨topLeft.x, topLeft.y, topLeft.x + size.wd - 1, topLeft.y + size.ht - 1⟩

/-- The method `QRect::center()`: C++ integer division truncates toward zero. -/
def QRect.center (r : QRect) : QPoint :=
  ⟨Int.tdiv (r.x1 + r.x2) 2, Int.tdiv (r.y1 + r.y2) 2⟩

/-- The method `QRect::moveCenter(p)`: the extent is kept, the corner is
placed half the extent before `p`. -/
def QRect.moveCenter (r : QRect) (p : QPoint) : QRect :=
  let w := r.x2 - r.x1
  let h := r.y2 - r.y1
  let x1 := p.x - Int.tdiv w 2
  let y1 := p.y - Int.tdiv h 2
  ⟨x1, y1, x1 + w, y1 + h⟩

/-- The method `QRect::size()`. -/
def QRect.size (r : QRect) : QSize := ⟨r.x2 - r.x1 + 1, r.y2 - r.y1 + 1⟩

/-- The method `QRect::topLeft()`. -/
def QRect.topLeft (r : QRect) : QPoint := ⟨r.x1, r.y1⟩

/-- The method `QRect::bottomRight()`. -/
def QRect.bottomRight (r : QRect) : QPoint := ⟨r.x2, r.y2⟩

/-- The method `QRect::adjusted(dx1, dy1, dx2, dy2)`. -/
def QRect.adjusted (r : QRect) (dx1 dy1 dx2 dy2 : Int) : QRect :=
  ⟨r.x1 + dx1, r.y1 + dy1, r.x2 + dx2, r.y2 + dy2⟩

/-- The method `QRect::moveTopLeft(p)`: the extent is kept. -/
def QRect.moveTopLeft (r : QRect) (p : QPoint) : QRect :=
  ⟨p.x, p.y, p.x + (r.x2 - r.x1), p.y + (r.y2 - r.y1)⟩

/-! ## Toolkit strings -/

/-- The method `QString::contains(str)`, case sensitive: `str` occurs somewhere
in the string; the empty string occurs in every string. -/
def QString_contains (str : List Char) : List Char → Bool
  | [] => str.isPrefixOf []
  | c :: cs => str.isPrefixOf (c :: cs) || QString_contains str cs

/-- The characters after the last occurrence of `sep`, or `none` when `sep`
does not occur. -/
def afterLast (sep : Char) (cs : List Char) : Option (List Char) :=
  match cs with
  | [] => none
  | c :: rest =>
    match afterLast sep rest with
    | some t => some t
    | none => if c = sep then some rest else none

/-- The method `QUrl::fileName()`: the part of the path after the last `/`. -/
def QUrl_fileName (path : String) : List Char :=
  (afterLast '/' path.toList).getD path.toList

/-- The method `QFileInfo(name).suffix()`: all characters after (not including)
the last `.`; empty when the name has no `.`. -/
def QFileInfo_suffix (name : List Char) : List Char :=
  (afterLast '.' name).getD []

/-! ## Events and collaborators -/

/-- The values of `Qt::MouseButton` a mouse event can carry. -/
inductive MouseButton where
  | NoButton | LeftButton | RightButton | MidButton | OtherButton
  deriving DecidableEq, Repr

/-- The values of `QEvent::Type` of mouse events. -/
inductive EventType where
  | MouseButtonPress | MouseButtonRelease | MouseButtonDblClick | MouseMove
  deriving DecidableEq, Repr

/-- The values of `Qt::CursorShape` the window uses. -/
inductive CursorShape where
  | ArrowCursor | SizeAllCursor
  deriving DecidableEq, Repr

/-- What the handlers read from a `QMouseEvent`. -/
structure QMouseEvent where
  button : MouseButton
  type : EventType
  globalPos : QPoint
  deriving DecidableEq, Repr

/-- Key code `Qt::Key_Escape`. -/
def Key_Escape : Int := 0x01000000

/-- Key code `Qt::Key_Control`. -/
def Key_Control : Int := 0x01000021

/-- A pixmap: its dimensions and an identifier of its pixel content. -/
structure QPixmap where
  size : QSize
  content : Nat
  deriving DecidableEq, Repr

/-- The null pixmap, `QPixmap()`. -/
def QPixmap.null : QPixmap := ⟨⟨0, 0⟩, 0⟩

/-- Modelled from the spec: the edit sub-panel `ImageEditMenu` (its class is
declared outside `imagewindow.cpp`); the window only shows, hides and moves it
and reads its width. -/
structure ImageEditMenu where
  visible : Bool
  pos : QPoint
  width : Int
  deriving DecidableEq, Repr

/-! ## The window -/

/-- The fields of `ImageWindow` and the widget state the handlers read and
write through the toolkit (`geometry`, `windowOpacity`, `cursor`, `visible`,
`closed`) and the system clipboard. -/
structure ImageWindow where
  pixmap_ : QPixmap
  size_ : QSize
  scale_ : ℚ
  opacity_ : ℚ
  thumbnail_ : Bool
  editing_ : Bool
  ctrl_ : Bool
  begin_ : QPoint
  edit_menu_ : ImageEditMenu
  geometry : QRect
  windowOpacity : ℚ
  cursor : CursorShape
  visible : Bool
  closed : Bool
  clipboard : QPixmap
  deriving DecidableEq, Repr

namespace ImageWindow

/-- The method `QWidget::pos()` of a frameless top-level window. -/
def pos (w : ImageWindow) : QPoint := w.geometry.topLeft

/-- The method `QWidget::resize(size)`: the position is kept. -/
def resize (w : ImageWindow) (s : QSize) : ImageWindow :=
  { w with geometry := QRect.fromTopLeftSize w.geometry.topLeft s }

/-- The method `QWidget::move(p)`: the size is kept. -/
def move (w : ImageWindow) (p : QPoint) : ImageWindow :=
  { w with geometry := w.geometry.moveTopLeft p }

/-- The border added around the image on both sides,
`QSize{SHANDOW_R_ * 2, SHANDOW_R_ * 2}`. -/
def border (R : Int) : QSize := ⟨R * 2, R * 2⟩

/-- Modelled from the spec: the member initialisers of `imagewindow.h` (the
header is outside `imagewindow.cpp`): scale 1.0, opacity 1.0, not thumbnail,
not editing, Control not held. The pixmap is null until `fix`; the stored
size, the geometry and the state of the collaborators are whatever the toolkit
starts with. -/
def init (size_ : QSize) (geometry : QRect) (begin_ : QPoint) (menu : ImageEditMenu)
    (clipboard : QPixmap) : ImageWindow :=
  { pixmap_ := QPixmap.null, size_ := size_, scale_ := 1, opacity_ := 1,
    thumbnail_ := false, editing_ := false, ctrl_ := false, begin_ := begin_,
    edit_menu_ := menu, geometry := geometry, windowOpacity := 1,
    cursor := CursorShape.ArrowCursor, visible := false, closed := false,
    clipboard := clipboard }

/-- `ImageWindow::moveMenu`: the edit panel is moved to the bottom-right
corner of the adjusted window rectangle. `setSubMenuShowBelow()` acts inside
the panel only. -/
def moveMenu (R : Int) (w : ImageWindow) : ImageWindow :=
  let rect := w.geometry.adjusted R R (-R - w.edit_menu_.width) (-R + 5)
  { w with edit_menu_ := { w.edit_menu_ with pos := rect.bottomRight } }

/-- `ImageWindow::fix`. -/
def fix (R : Int) (w : ImageWindow) (image : QPixmap) : ImageWindow :=
  let w1 := { w with pixmap_ := image }
  let w2 := { w1 with size_ := w1.pixmap_.size }
  let w3 := w2.resize (w2.size_.add (border R))
  { w3 with visible := true }

/-- `ImageWindow::mousePressEvent`. -/
def mousePressEvent (R : Int) (w : ImageWindow) (event : QMouseEvent) : ImageWindow :=
  if w.editing_ then w
  else
    let w1 :=
      if event.button = MouseButton.LeftButton ∧ event.type = EventType.MouseButtonDblClick then
        let w0 := { w with thumbnail_ := !w.thumbnail_ }
        let rect := QRect.fromTopLeftSize ⟨0, 0⟩
          ((if w0.thumbnail_ then (⟨125, 125⟩ : QSize) else w0.size_.mul w0.scale_).add (border R))
        let rect := rect.moveCenter w0.geometry.center
        { w0 with geometry := rect }
      else w
    let w2 := { w1 with cursor := CursorShape.SizeAllCursor }
    { w2 with begin_ := event.globalPos }

/-- `ImageWindow::mouseMoveEvent`. -/
def mouseMoveEvent (w : ImageWindow) (event : QMouseEvent) : ImageWindow :=
  if w.editing_ then w
  else
    let w1 := w.move ((event.globalPos.sub w.begin_).add w.pos)
    { w1 with begin_ := event.globalPos }

/-- `ImageWindow::wheelEvent`; `delta` is `event->delta()`. -/
def wheelEvent (R : Int) (w : ImageWindow) (delta : Int) : ImageWindow :=
  if w.editing_ then w
  else
    let d : ℚ := (delta : ℚ) / 12000
    if w.ctrl_ then
      let w1 := { w with opacity_ := w.opacity_ + d }
      let w2 := if w1.opacity_ < 1 / 100 then { w1 with opacity_ := 1 / 100 } else w1
      let w3 := if w2.opacity_ > 1 then { w2 with opacity_ := 1 } else w2
      { w3 with windowOpacity := w3.opacity_ }
    else if !w.thumbnail_ then
      let w1 := { w with scale_ := w.scale_ + d }
      let w2 := { w1 with scale_ := if w1.scale_ < 1 / 100 then 1 / 100 else w1.scale_ }
      let rect := QRect.fromTopLeftSize ⟨0, 0⟩ ((w2.size_.mul w2.scale_).add (border R))
      let rect := rect.moveCenter w2.geometry.center
      { w2 with geometry := rect }
    else w

/-- `ImageWindow::paintEvent`: the scaled (and, in thumbnail mode, cropped)
pixmap is drawn; no field of the window is written. -/
def paintEvent (w : ImageWindow) : ImageWindow := w

/-- `ImageWindow::copy`: the pixmap is written to the clipboard. -/
def copy (w : ImageWindow) : ImageWindow :=
  { w with clipboard := w.pixmap_ }

/-- `ImageWindow::paste`. -/
def paste (R : Int) (w : ImageWindow) : ImageWindow :=
  let w1 := { w with pixmap_ := w.clipboard }
  let w2 := { w1 with size_ := w1.pixmap_.size }
  w2.resize (w2.size_.add (border R))

/-- `ImageWindow::open`; `filename` is the answer of the file dialog (empty
when it was cancelled) and `loaded` is `QPixmap(filename)`. -/
def «open» (R : Int) (w : ImageWindow) (filename : String) (loaded : QPixmap) : ImageWindow :=
  if !filename.isEmpty then
    let w1 := { w with pixmap_ := loaded }
    let w2 := { w1 with size_ := w1.pixmap_.size }
    w2.resize (w2.size_.add (border R))
  else w

/-- `ImageWindow::saveAs`: the pixmap is written to a file; no field of the
window is written. -/
def saveAs (w : ImageWindow) : ImageWindow := w

/-- `ImageWindow::recover`. -/
def recover (R : Int) (w : ImageWindow) : ImageWindow :=
  if w.thumbnail_ then w
  else
    let w1 := { w with opacity_ := 1 }
    let w2 := { w1 with windowOpacity := w1.opacity_ }
    let w3 := { w2 with scale_ := 1 }
    let rect := QRect.fromTopLeftSize ⟨0, 0⟩ (w3.size_.add (border R))
    let rect := rect.moveCenter w3.geometry.center
    { w3 with geometry := rect }

/-- The `Edit` action of `ImageWindow::contextMenuEvent`. -/
def editAction (R : Int) (w : ImageWindow) : ImageWindow :=
  if w.thumbnail_ then w
  else
    let w1 := { w with editing_ := true }
    let w2 := { w1 with edit_menu_ := { w1.edit_menu_ with visible := true } }
    moveMenu R w2

/-- The handler the constructor connects to `ImageEditMenu::exit`. -/
def editExit (w : ImageWindow) : ImageWindow :=
  let w1 := { w with edit_menu_ := { w.edit_menu_ with visible := false } }
  { w1 with editing_ := false }

/-- The slot `QWidget::close()`, reached from the `Close` action and from
Escape. -/
def close (w : ImageWindow) : ImageWindow :=
  { w with closed := true }

/-- `ImageWindow::moveEvent`. -/
def moveEvent (R : Int) (w : ImageWindow) : ImageWindow := moveMenu R w

/-- `ImageWindow::dropEvent`; `loaded` is the pixmap after
`pixmap_.load(path)` (null when the file could not be read). -/
def dropEvent (R : Int) (w : ImageWindow) (loaded : QPixmap) : ImageWindow :=
  let w1 := { w with scale_ := 1 }
  let w2 := { w1 with pixmap_ := loaded }
  let w3 := { w2 with size_ := w2.pixmap_.size }
  w3.resize (w3.size_.add (border R))

/-- The allow-list string of `ImageWindow::dragEnterEvent`. -/
def allowList : String := "jpg;png;jpeg;JPG;PNG;JPEG;bmp;BMP"

/-- `ImageWindow::dragEnterEvent`; `urls` are the paths of the dragged URLs
(`hasUrls()` is `urls` being non-empty). The result tells whether
`acceptProposedAction` was called. No field of the window is written. -/
def dragEnterEvent (urls : List String) : Bool :=
  match urls with
  | [] => false
  | u :: _ => QString_contains (QFileInfo_suffix (QUrl_fileName u)) allowList.toList

/-- `ImageWindow::keyPressEvent`. -/
def keyPressEvent (w : ImageWindow) (key : Int) : ImageWindow :=
  let w1 := if key = Key_Escape then w.close else w
  if key = Key_Control then { w1 with ctrl_ := true } else w1

/-- `ImageWindow::keyReleaseEvent`. -/
def keyReleaseEvent (w : ImageWindow) (key : Int) : ImageWindow :=
  if key = Key_Control then { w with ctrl_ := false } else w

end ImageWindow

/-! ## Sequences of handler calls -/

/-- One call of a handler of the window, with what the toolkit passes to it.
`clipboardChanged` is another application writing the clipboard. -/
inductive Event where
  | fix (image : QPixmap)
  | mousePress (e : QMouseEvent)
  | mouseMove (e : QMouseEvent)
  | wheel (delta : Int)
  | paint
  | copy
  | paste
  | «open» (filename : String) (loaded : QPixmap)
  | saveAs
  | recover
  | editAction
  | editExit
  | close
  | moveEvent
  | drop (loaded : QPixmap)
  | dragEnter (urls : List String)
  | keyPress (key : Int)
  | keyRelease (key : Int)
  | clipboardChanged (p : QPixmap)

/-- The state after one handler call. -/
def step (R : Int) (w : ImageWindow) : Event → ImageWindow
  | Event.fix image => w.fix R image
  | Event.mousePress e => w.mousePressEvent R e
  | Event.mouseMove e => w.mouseMoveEvent e
  | Event.wheel delta => w.wheelEvent R delta
  | Event.paint => w.paintEvent
  | Event.copy => w.copy
  | Event.paste => w.paste R
  | Event.open filename loaded => w.open R filename loaded
  | Event.saveAs => w.saveAs
  | Event.recover => w.recover R
  | Event.editAction => w.editAction R
  | Event.editExit => w.editExit
  | Event.close => w.close
  | Event.moveEvent => w.moveEvent R
  | Event.drop loaded => w.dropEvent R loaded
  | Event.dragEnter _ => w
  | Event.keyPress key => w.keyPressEvent key
  | Event.keyRelease key => w.keyReleaseEvent key
  | Event.clipboardChanged p => { w with clipboard := p }

/-- The state after a sequence of handler calls. -/
def run (R : Int) (w : ImageWindow) (es : List Event) : ImageWindow :=
  es.foldl (step R) w

/-! ## Sample states and auxiliary definitions -/

/-- A window showing a 200 x 100 pixmap at scale 1 with its top-left corner at
(300, 200), for a shadow radius of 10. -/
def sampleWindow : ImageWindow :=
  { pixmap_ := ⟨⟨200, 100⟩, 7⟩, size_ := ⟨200, 100⟩, scale_ := 1, opacity_ := 1,
    thumbnail_ := false, editing_ := false, ctrl_ := false, begin_ := ⟨0, 0⟩,
    edit_menu_ := ⟨false, ⟨0, 0⟩, 80⟩, geometry := ⟨300, 200, 519, 319⟩,
    windowOpacity := 1, cursor := CursorShape.ArrowCursor, visible := true,
    closed := false, clipboard := QPixmap.null }

/-- The sample window in editing mode. -/
def sampleEditing : ImageWindow := { sampleWindow with editing_ := true }

/-- The sample window in thumbnail mode. -/
def sampleThumbnail : ImageWindow :=
  { sampleWindow with thumbnail_ := true, geometry := ⟨300, 200, 444, 344⟩ }

/-- The state after a sequence of `mouseMoveEvent` calls. -/
def drag (w : ImageWindow) (moves : List QMouseEvent) : ImageWindow :=
  moves.foldl ImageWindow.mouseMoveEvent w

/-- The global position of the last event of `moves`, or `p0` when there is
none. -/
def lastGlobalPos (p0 : QPoint) : List QMouseEvent → QPoint
  | [] => p0
  | e :: es => lastGlobalPos e.globalPos es

/-- A left-button double click at global position `p`. -/
def dblClick (p : QPoint) : QMouseEvent :=
  ⟨MouseButton.LeftButton, EventType.MouseButtonDblClick, p⟩

/-- The window size `mousePressEvent` gives to a full (not thumbnailed) view. -/
def fullSize (R : Int) (w : ImageWindow) : QSize :=
  (w.size_.mul w.scale_).add (ImageWindow.border R)

/-- The window size `mousePressEvent` gives to a thumbnail. -/
def thumbnailSize (R : Int) : QSize :=
  (⟨125, 125⟩ : QSize).add (ImageWindow.border R)

/-- The sample window at scale 1/2 with a window of the natural size plus
border, as `paste`, `open` and `dropEvent` size it whatever the scale. -/
def samplePasted : ImageWindow := { sampleWindow with scale_ := 1 / 2 }

/-- The sample window left of the screen origin, at negative x coordinates. -/
def sampleLeft : ImageWindow := { sampleWindow with geometry := ⟨-520, 200, -301, 319⟩ }

/-- A window showing a 201 x 101 pixmap at scale 1, left of and above the
screen origin: its 221 x 121 rectangle has odd dimensions. -/
def sampleLeftOdd : ImageWindow :=
  { sampleWindow with pixmap_ := ⟨⟨201, 101⟩, 7⟩, size_ := ⟨201, 101⟩,
                      geometry := ⟨-520, -400, -300, -280⟩ }

/-! ## Invariants of one handler call -/

/-- One handler call keeps the scale at or above 1/100. -/
theorem step_scale_ge (R : Int) (w : ImageWindow) (e : Event)
    (h : 1 / 100 ≤ w.scale_) : 1 / 100 ≤ (step R w e).scale_ := by
  cases e <;>
    simp only [step, ImageWindow.fix, ImageWindow.mousePressEvent, ImageWindow.mouseMoveEvent,
      ImageWindow.wheelEvent, ImageWindow.paintEvent, ImageWindow.copy, ImageWindow.paste,
      ImageWindow.open, ImageWindow.saveAs, ImageWindow.recover, ImageWindow.editAction,
      ImageWindow.editExit, ImageWindow.close, ImageWindow.moveEvent, ImageWindow.dropEvent,
      ImageWindow.keyPressEvent, ImageWindow.keyReleaseEvent, ImageWindow.resize,
      ImageWindow.move, ImageWindow.moveMenu] <;>
    (repeat' split) <;> simp_all <;> norm_num

/-- A sequence of handler calls keeps the scale at or above 1/100. -/
theorem run_scale_ge (R : Int) (es : List Event) :
    ∀ w : ImageWindow, 1 / 100 ≤ w.scale_ → 1 / 100 ≤ (run R w es).scale_ := by
  induction es with
  | nil => intro w h; exact h
  | cons e es ih =>
    intro w h
    exact ih (step R w e) (step_scale_ge R w e h)

/-- One handler call keeps the opacity between 1/100 and 1. -/
theorem step_opacity_range (R : Int) (w : ImageWindow) (e : Event)
    (h : 1 / 100 ≤ w.opacity_ ∧ w.opacity_ ≤ 1) :
    1 / 100 ≤ (step R w e).opacity_ ∧ (step R w e).opacity_ ≤ 1 := by
  obtain ⟨hlo, hhi⟩ := h
  cases e <;>
    simp only [step, ImageWindow.fix, ImageWindow.mousePressEvent, ImageWindow.mouseMoveEvent,
      ImageWindow.wheelEvent, ImageWindow.paintEvent, ImageWindow.copy, ImageWindow.paste,
      ImageWindow.open, ImageWindow.saveAs, ImageWindow.recover, ImageWindow.editAction,
      ImageWindow.editExit, ImageWindow.close, ImageWindow.moveEvent, ImageWindow.dropEvent,
      ImageWindow.keyPressEvent, ImageWindow.keyReleaseEvent, ImageWindow.resize,
      ImageWindow.move, ImageWindow.moveMenu] <;>
    (repeat' split) <;> simp_all <;> norm_num

/-- A sequence of handler calls keeps the opacity between 1/100 and 1. -/
theorem run_opacity_range (R : Int) (es : List Event) :
    ∀ w : ImageWindow, 1 / 100 ≤ w.opacity_ ∧ w.opacity_ ≤ 1 →
      1 / 100 ≤ (run R w es).opacity_ ∧ (run R w es).opacity_ ≤ 1 := by
  induction es with
  | nil => intro w h; exact h
  | cons e es ih =>
    intro w h
    exact ih (step R w e) (step_opacity_range R w e h)

/-- One handler call never makes a state both editing and thumbnailed. -/
theorem step_exclusive (R : Int) (w : ImageWindow) (e : Event)
    (h : ¬ (w.editing_ = true ∧ w.thumbnail_ = true)) :
    ¬ ((step R w e).editing_ = true ∧ (step R w e).thumbnail_ = true) := by
  cases e <;>
    simp only [step, ImageWindow.fix, ImageWindow.mousePressEvent, ImageWindow.mouseMoveEvent,
      ImageWindow.wheelEvent, ImageWindow.paintEvent, ImageWindow.copy, ImageWindow.paste,
      ImageWindow.open, ImageWindow.saveAs, ImageWindow.recover, ImageWindow.editAction,
      ImageWindow.editExit, ImageWindow.close, ImageWindow.moveEvent, ImageWindow.dropEvent,
      ImageWindow.keyPressEvent, ImageWindow.keyReleaseEvent, ImageWindow.resize,
      ImageWindow.move, ImageWindow.moveMenu] <;>
    (repeat' split) <;> simp_all

/-- A sequence of handler calls never makes a state both editing and thumbnailed. -/
theorem run_exclusive (R : Int) (es : List Event) :
    ∀ w : ImageWindow, ¬ (w.editing_ = true ∧ w.thumbnail_ = true) →
      ¬ ((run R w es).editing_ = true ∧ (run R w es).thumbnail_ = true) := by
  induction es with
  | nil => intro w h; exact h
  | cons e es ih =>
    intro w h
    exact ih (step R w e) (step_exclusive R w e h)

/-! ## Scale and opacity bounds -/

/-- C1: from any state with scale 1, after any sequence of handler calls
(wheel events with any delta, mouse, key, recover, drop, paste, open, ...) the
scale is at least 1/100. -/
theorem scale_at_least_min (R : Int) (w : ImageWindow) (es : List Event)
    (h : w.scale_ = 1) : 1 / 100 ≤ (run R w es).scale_ :=
  run_scale_ge R es w (by rw [h]; norm_num)

/-- C1 at the initial state, for a wheel event far below the floor. -/
theorem scale_at_least_min_witness :
    (ImageWindow.init ⟨0, 0⟩ ⟨0, 0, 99, 99⟩ ⟨0, 0⟩ ⟨false, ⟨0, 0⟩, 80⟩ QPixmap.null).scale_ = 1 ∧
      1 / 100 ≤ (run 10 (ImageWindow.init ⟨0, 0⟩ ⟨0, 0, 99, 99⟩ ⟨0, 0⟩ ⟨false, ⟨0, 0⟩, 80⟩ QPixmap.null)
        [Event.fix ⟨⟨200, 100⟩, 7⟩, Event.wheel (-2000000), Event.wheel 120,
          Event.keyPress Key_Control, Event.wheel (-120), Event.drop QPixmap.null]).scale_ :=
  ⟨rfl, scale_at_least_min 10 _ _ rfl⟩

/-- C2: from any state with opacity 1, after any sequence of handler calls
(Control-held wheel events with any delta interleaved with any other handler)
the opacity lies between 1/100 and 1. -/
theorem opacity_within_range (R : Int) (w : ImageWindow) (es : List Event)
    (h : w.opacity_ = 1) :
    1 / 100 ≤ (run R w es).opacity_ ∧ (run R w es).opacity_ ≤ 1 :=
  run_opacity_range R es w (by rw [h]; norm_num)

/-- C2 at the initial state, for Control-held wheel events past both ends. -/
theorem opacity_within_range_witness :
    (ImageWindow.init ⟨0, 0⟩ ⟨0, 0, 99, 99⟩ ⟨0, 0⟩ ⟨false, ⟨0, 0⟩, 80⟩ QPixmap.null).opacity_ = 1 ∧
      1 / 100 ≤ (run 10 (ImageWindow.init ⟨0, 0⟩ ⟨0, 0, 99, 99⟩ ⟨0, 0⟩ ⟨false, ⟨0, 0⟩, 80⟩ QPixmap.null)
        [Event.fix ⟨⟨200, 100⟩, 7⟩, Event.keyPress Key_Control, Event.wheel (-2000000),
          Event.wheel 2000000]).opacity_ ∧
      (run 10 (ImageWindow.init ⟨0, 0⟩ ⟨0, 0, 99, 99⟩ ⟨0, 0⟩ ⟨false, ⟨0, 0⟩, 80⟩ QPixmap.null)
        [Event.fix ⟨⟨200, 100⟩, 7⟩, Event.keyPress Key_Control, Event.wheel (-2000000),
          Event.wheel 2000000]).opacity_ ≤ 1 :=
  ⟨rfl, opacity_within_range 10 _ _ rfl⟩

/-! ## Editing and thumbnail modes -/

/-- C10: from any state that is neither editing nor thumbnailed, no sequence
of handler calls reaches a state that is both editing and thumbnailed. -/
theorem editing_thumbnail_exclusive (R : Int) (w : ImageWindow) (es : List Event)
    (he : w.editing_ = false) (ht : w.thumbnail_ = false) :
    ¬ ((run R w es).editing_ = true ∧ (run R w es).thumbnail_ = true) :=
  run_exclusive R es w (by simp [he, ht])

/-- C10 at the initial state: the Edit action after a double click. -/
theorem editing_thumbnail_exclusive_witness :
    (ImageWindow.init ⟨0, 0⟩ ⟨0, 0, 99, 99⟩ ⟨0, 0⟩ ⟨false, ⟨0, 0⟩, 80⟩ QPixmap.null).editing_ = false ∧
      (ImageWindow.init ⟨0, 0⟩ ⟨0, 0, 99, 99⟩ ⟨0, 0⟩ ⟨false, ⟨0, 0⟩, 80⟩ QPixmap.null).thumbnail_ = false ∧
      ¬ ((run 10 (ImageWindow.init ⟨0, 0⟩ ⟨0, 0, 99, 99⟩ ⟨0, 0⟩ ⟨false, ⟨0, 0⟩, 80⟩ QPixmap.null)
            [Event.fix ⟨⟨200, 100⟩, 7⟩,
              Event.mousePress ⟨MouseButton.LeftButton, EventType.MouseButtonDblClick, ⟨5, 5⟩⟩,
              Event.editAction]).editing_ = true ∧
          (run 10 (ImageWindow.init ⟨0, 0⟩ ⟨0, 0, 99, 99⟩ ⟨0, 0⟩ ⟨false, ⟨0, 0⟩, 80⟩ QPixmap.null)
            [Event.fix ⟨⟨200, 100⟩, 7⟩,
              Event.mousePress ⟨MouseButton.LeftButton, EventType.MouseButtonDblClick, ⟨5, 5⟩⟩,
              Event.editAction]).thumbnail_ = true) :=
  ⟨rfl, rfl, editing_thumbnail_exclusive 10 _ _ rfl rfl⟩

/-- C6: in a state with editing set, the mouse press, mouse move and wheel
handlers return the state unchanged in every field, and a key press of Escape
closes the window. -/
theorem editing_suppresses_pointer (R : Int) (w : ImageWindow) (e : QMouseEvent) (delta : Int)
    (h : w.editing_ = true) :
    w.mousePressEvent R e = w ∧ w.mouseMoveEvent e = w ∧ w.wheelEvent R delta = w ∧
      (w.keyPressEvent Key_Escape).closed = true := by
  refine ⟨?_, ?_, ?_, ?_⟩
  · simp [ImageWindow.mousePressEvent, h]
  · simp [ImageWindow.mouseMoveEvent, h]
  · simp [ImageWindow.wheelEvent, h]
  · simp [ImageWindow.keyPressEvent, ImageWindow.close, Key_Escape, Key_Control]

/-- C6 at the sample window in editing mode. -/
theorem editing_suppresses_pointer_witness :
    sampleEditing.editing_ = true ∧
      sampleEditing.mousePressEvent 10
          ⟨MouseButton.LeftButton, EventType.MouseButtonDblClick, ⟨5, 5⟩⟩ = sampleEditing ∧
      sampleEditing.mouseMoveEvent
          ⟨MouseButton.LeftButton, EventType.MouseButtonDblClick, ⟨5, 5⟩⟩ = sampleEditing ∧
      sampleEditing.wheelEvent 10 (-120) = sampleEditing ∧
      (sampleEditing.keyPressEvent Key_Escape).closed = true :=
  ⟨rfl, editing_suppresses_pointer 10 sampleEditing _ (-120) rfl⟩

/-- C8: in a state with thumbnail set, a wheel event with any delta leaves the
scale and the window geometry unchanged, Control held or not; with Control not
held it leaves the opacity unchanged too. -/
theorem thumbnail_wheel_frame (R : Int) (w : ImageWindow) (delta : Int)
    (h : w.thumbnail_ = true) :
    (w.wheelEvent R delta).scale_ = w.scale_ ∧
      (w.wheelEvent R delta).geometry = w.geometry ∧
      (w.ctrl_ = false → (w.wheelEvent R delta).opacity_ = w.opacity_) := by
  simp only [ImageWindow.wheelEvent]
  refine ⟨?_, ?_, ?_⟩
  · (repeat' split) <;> simp_all
  · (repeat' split) <;> simp_all
  · intro hc
    (repeat' split) <;> simp_all

/-- C8 at the sample thumbnail, Control not held. -/
theorem thumbnail_wheel_frame_witness :
    sampleThumbnail.thumbnail_ = true ∧ sampleThumbnail.ctrl_ = false ∧
      (sampleThumbnail.wheelEvent 10 360).scale_ = sampleThumbnail.scale_ ∧
      (sampleThumbnail.wheelEvent 10 360).geometry = sampleThumbnail.geometry ∧
      (sampleThumbnail.wheelEvent 10 360).opacity_ = sampleThumbnail.opacity_ :=
  ⟨rfl, rfl, (thumbnail_wheel_frame 10 sampleThumbnail 360 rfl).1,
    (thumbnail_wheel_frame 10 sampleThumbnail 360 rfl).2.1,
    (thumbnail_wheel_frame 10 sampleThumbnail 360 rfl).2.2 rfl⟩

/-! ## Recover -/

/-- C4: recover on a state that is not thumbnailed yields scale 1, opacity 1
and a window whose size is the natural size plus twice the shadow radius in
each dimension; on a thumbnailed state it returns the state unchanged. -/
theorem recover_spec (R : Int) (w : ImageWindow) :
    (w.thumbnail_ = false →
      (w.recover R).scale_ = 1 ∧ (w.recover R).opacity_ = 1 ∧
        (w.recover R).geometry.size = w.size_.add ⟨2 * R, 2 * R⟩) ∧
    (w.thumbnail_ = true → w.recover R = w) := by
  constructor
  · intro h
    simp only [ImageWindow.recover, h, QRect.fromTopLeftSize, QRect.moveCenter, QRect.size,
      QSize.add, ImageWindow.border]
    refine ⟨rfl, rfl, ?_⟩
    simp only [Bool.false_eq_true, if_false, QSize.mk.injEq]
    constructor <;> ring
  · intro h
    simp [ImageWindow.recover, h]

/-- C4 at the sample window and at the sample thumbnail. -/
theorem recover_spec_witness :
    (sampleWindow.thumbnail_ = false ∧
      (sampleWindow.recover 10).scale_ = 1 ∧ (sampleWindow.recover 10).opacity_ = 1 ∧
        (sampleWindow.recover 10).geometry.size = sampleWindow.size_.add ⟨2 * 10, 2 * 10⟩) ∧
    (sampleThumbnail.thumbnail_ = true ∧ sampleThumbnail.recover 10 = sampleThumbnail) :=
  ⟨⟨rfl, (recover_spec 10 sampleWindow).1 rfl⟩, ⟨rfl, (recover_spec 10 sampleThumbnail).2 rfl⟩⟩

/-! ## Keys while editing -/

/-- C7 as stated fails: in an editing state with Control not held, a key press
of Control (a key other than Escape) sets the Control-held flag. -/
theorem editing_key_changes_ctrl :
    sampleEditing.editing_ = true ∧ Key_Control ≠ Key_Escape ∧
      (sampleEditing.keyPressEvent Key_Control).ctrl_ ≠ sampleEditing.ctrl_ := by
  refine ⟨rfl, by decide, ?_⟩
  simp [ImageWindow.keyPressEvent, sampleEditing, sampleWindow, Key_Control, Key_Escape]

/-- C7 amended: in a state with editing set, a key press or release of any key
other than Escape and Control returns the state unchanged; a press of Control
sets the Control-held flag and a release of Control clears it, and neither
writes any other field. -/
theorem editing_key_frame (w : ImageWindow) (key : Int)
    (_h : w.editing_ = true) (hk : key ≠ Key_Escape) :
    (key ≠ Key_Control → w.keyPressEvent key = w ∧ w.keyReleaseEvent key = w) ∧
      (key = Key_Control → w.keyPressEvent key = { w with ctrl_ := true } ∧
        w.keyReleaseEvent key = { w with ctrl_ := false }) := by
  constructor
  · intro hc
    simp [ImageWindow.keyPressEvent, ImageWindow.keyReleaseEvent, hk, hc]
  · intro hc
    subst hc
    simp [ImageWindow.keyPressEvent, ImageWindow.keyReleaseEvent, hk]

/-- C7 amended, at the sample window in editing mode for the key `A` (code
65) and for Control. -/
theorem editing_key_frame_witness :
    sampleEditing.editing_ = true ∧ (65 : Int) ≠ Key_Escape ∧ Key_Control ≠ Key_Escape ∧
      (sampleEditing.keyPressEvent 65 = sampleEditing ∧
        sampleEditing.keyReleaseEvent 65 = sampleEditing) ∧
      (sampleEditing.keyPressEvent Key_Control = { sampleEditing with ctrl_ := true } ∧
        sampleEditing.keyReleaseEvent Key_Control = { sampleEditing with ctrl_ := false }) :=
  ⟨rfl, by decide, by decide,
    (editing_key_frame sampleEditing 65 rfl (by decide)).1 (by decide),
    (editing_key_frame sampleEditing Key_Control rfl (by decide)).2 rfl⟩

/-! ## Drag to move -/

/-- Mouse moves from a non-editing state translate the window by the travel of the pointer since the anchor. -/
theorem drag_from (moves : List QMouseEvent) :
    ∀ v : ImageWindow, v.editing_ = false →
      (drag v moves).pos = v.pos.add ((lastGlobalPos v.begin_ moves).sub v.begin_) ∧
      (drag v moves).begin_ = lastGlobalPos v.begin_ moves ∧
      (drag v moves).geometry.size = v.geometry.size ∧
      (drag v moves).scale_ = v.scale_ ∧
      (drag v moves).opacity_ = v.opacity_ ∧
      (drag v moves).thumbnail_ = v.thumbnail_ := by
  induction moves with
  | nil =>
    intro v _
    simp [drag, lastGlobalPos, QPoint.add, QPoint.sub]
  | cons e es ih =>
    intro v hv
    have hstep : (v.mouseMoveEvent e).editing_ = false := by
      simp [ImageWindow.mouseMoveEvent, hv, ImageWindow.move]
    obtain ⟨h1, h2, h3, h4, h5, h6⟩ := ih (v.mouseMoveEvent e) hstep
    have hb : (v.mouseMoveEvent e).begin_ = e.globalPos := by
      simp [ImageWindow.mouseMoveEvent, hv]
    have hd : drag v (e :: es) = drag (v.mouseMoveEvent e) es := rfl
    rw [hd, lastGlobalPos, h1, h2, h3, h4, h5, h6, hb]
    simp only [ImageWindow.mouseMoveEvent, hv, ImageWindow.move, ImageWindow.pos,
      QRect.moveTopLeft, QRect.topLeft, QRect.size, QPoint.add, QPoint.sub,
      Bool.false_eq_true, if_false, QPoint.mk.injEq, QSize.mk.injEq]
    refine ⟨⟨by ring, by ring⟩, trivial, ⟨by ring, by ring⟩, trivial, trivial, trivial⟩

/-- C9: in a non-editing state, after a single-click mouse press at global
position p0 followed by mouse moves at p1, ..., pn, the window position is the
position before the press plus (pn - p0) (no movement when there is no move),
the drag anchor is pn, and the window size, scale, opacity and thumbnail flag
are those before the press. -/
theorem drag_telescopes (R : Int) (w : ImageWindow) (press : QMouseEvent)
    (moves : List QMouseEvent) (he : w.editing_ = false)
    (hs : ¬ (press.button = MouseButton.LeftButton ∧
      press.type = EventType.MouseButtonDblClick)) :
    (drag (w.mousePressEvent R press) moves).pos =
        w.pos.add ((lastGlobalPos press.globalPos moves).sub press.globalPos) ∧
      (drag (w.mousePressEvent R press) moves).begin_ = lastGlobalPos press.globalPos moves ∧
      (drag (w.mousePressEvent R press) moves).geometry.size = w.geometry.size ∧
      (drag (w.mousePressEvent R press) moves).scale_ = w.scale_ ∧
      (drag (w.mousePressEvent R press) moves).opacity_ = w.opacity_ ∧
      (drag (w.mousePressEvent R press) moves).thumbnail_ = w.thumbnail_ := by
  have hp : w.mousePressEvent R press =
      { w with cursor := CursorShape.SizeAllCursor, begin_ := press.globalPos } := by
    simp [ImageWindow.mousePressEvent, he, hs]
  have hv : (w.mousePressEvent R press).editing_ = false := by rw [hp]; exact he
  have h := drag_from moves (w.mousePressEvent R press) hv
  rw [hp] at h ⊢
  exact h

/-- C9 at the sample window: a press at (310, 210) and moves to (315, 212)
and (290, 250) carry the corner from (300, 200) to (280, 240). -/
theorem drag_telescopes_witness :
    sampleWindow.editing_ = false ∧
      (drag (sampleWindow.mousePressEvent 10
          ⟨MouseButton.LeftButton, EventType.MouseButtonPress, ⟨310, 210⟩⟩)
        [⟨MouseButton.NoButton, EventType.MouseMove, ⟨315, 212⟩⟩,
          ⟨MouseButton.NoButton, EventType.MouseMove, ⟨290, 250⟩⟩]).pos = ⟨280, 240⟩ := by
  have h := drag_telescopes 10 sampleWindow
    ⟨MouseButton.LeftButton, EventType.MouseButtonPress, ⟨310, 210⟩⟩
    [⟨MouseButton.NoButton, EventType.MouseMove, ⟨315, 212⟩⟩,
      ⟨MouseButton.NoButton, EventType.MouseMove, ⟨290, 250⟩⟩] rfl (by decide)
  exact ⟨rfl, h.1.trans (by decide)⟩

/-! ## Thumbnail toggle -/

/-- Truncating division of an even number by two is exact. -/
theorem tdiv_two_mul (k : Int) : Int.tdiv (2 * k) 2 = k :=
  Int.mul_tdiv_cancel_left k (by decide)

/-- The state `samplePasted` stands for is reached by handlers: after a copy, a
wheel event down to scale 1/2 and a paste, the window is 220 x 120 while the
full-view size at that scale is 120 x 70. -/
theorem paste_keeps_scale :
    (run 10 sampleWindow [Event.copy, Event.wheel (-6000), Event.paste]).scale_ = 1 / 2 ∧
      (run 10 sampleWindow [Event.copy, Event.wheel (-6000), Event.paste]).geometry.size =
        ⟨220, 120⟩ ∧
      fullSize 10 (run 10 sampleWindow [Event.copy, Event.wheel (-6000), Event.paste]) =
        ⟨120, 70⟩ := by
  norm_num [run, step, ImageWindow.copy, ImageWindow.wheelEvent, ImageWindow.paste,
    ImageWindow.resize, sampleWindow, fullSize, QRect.fromTopLeftSize, QRect.moveCenter,
    QRect.center, QRect.size, QRect.topLeft, QSize.add, QSize.mul, ImageWindow.border, qRound]
  decide

/-- C3 as stated fails. A 220 x 120 window showing a 200 x 100 pixmap at scale
1/2 comes back from two double clicks as a 120 x 70 window; and a window of the
prescribed size, of even width and with left + right negative, comes back one
pixel to the right. -/
theorem thumbnail_toggle_not_roundtrip :
    (samplePasted.editing_ = false ∧
      ((samplePasted.mousePressEvent 10 (dblClick ⟨0, 0⟩)).mousePressEvent 10
        (dblClick ⟨0, 0⟩)).geometry = ⟨350, 225, 469, 294⟩ ∧
      samplePasted.geometry = ⟨300, 200, 519, 319⟩) ∧
    (sampleLeft.editing_ = false ∧
      sampleLeft.geometry.size = fullSize 10 sampleLeft ∧
      ((sampleLeft.mousePressEvent 10 (dblClick ⟨0, 0⟩)).mousePressEvent 10
        (dblClick ⟨0, 0⟩)).geometry = ⟨-519, 200, -300, 319⟩ ∧
      sampleLeft.geometry = ⟨-520, 200, -301, 319⟩) := by
  refine ⟨⟨rfl, ?_, rfl⟩, ⟨rfl, ?_, ?_, rfl⟩⟩
  · norm_num [ImageWindow.mousePressEvent, samplePasted, sampleWindow, dblClick,
      QRect.fromTopLeftSize, QRect.moveCenter, QRect.center, QSize.add, QSize.mul,
      ImageWindow.border, qRound]
    decide
  · norm_num [fullSize, sampleLeft, sampleWindow, QRect.size, QSize.add, QSize.mul,
      ImageWindow.border, qRound]
  · norm_num [ImageWindow.mousePressEvent, sampleLeft, sampleWindow, dblClick,
      QRect.fromTopLeftSize, QRect.moveCenter, QRect.center, QSize.add, QSize.mul,
      ImageWindow.border, qRound]
    decide

/-- Truncating division by two, by the sign of the dividend. -/
theorem tdiv_two_cases (a : Int) :
    (0 ≤ a ∧ Int.tdiv a 2 = a / 2) ∨ (a < 0 ∧ Int.tdiv a 2 = -((-a) / 2)) := by
  rcases Int.lt_or_le a 0 with h | h
  · right
    refine ⟨h, ?_⟩
    have h2 : Int.tdiv (-a) 2 = (-a) / 2 := Int.tdiv_eq_ediv (by omega) (by decide)
    rw [← h2, Int.neg_tdiv, neg_neg]
  · left
    exact ⟨h, Int.tdiv_eq_ediv h (by decide)⟩

/-- One axis of a full view toggled to the thumbnail and back: the left edge
returns exactly when the extent is odd or left + right is non-negative. -/
theorem axis_full_first (x1 x2 : Int) (hs : 1 ≤ x2 - x1 + 1) :
    Int.tdiv (x1 + x2) 2 - Int.tdiv (x2 - x1 + 1 - 1) 2 = x1 ↔
      (0 ≤ x1 + x2 ∨ (x2 - x1 + 1) % 2 = 1) := by
  rcases tdiv_two_cases (x1 + x2) with ⟨h1, e1⟩ | ⟨h1, e1⟩ <;>
    rcases tdiv_two_cases (x2 - x1 + 1 - 1) with ⟨h2, e2⟩ | ⟨h2, e2⟩ <;>
    rw [e1, e2] <;> constructor <;> intro h <;> omega

/-- One axis of a thumbnail toggled to the full view of extent `s` around the
centre `c`: the centre of the full view is `c` exactly when `s` is odd or `c`
is non-negative. -/
theorem axis_thumbnail_first (c s : Int) (hs : 1 ≤ s) :
    Int.tdiv (c - Int.tdiv (s - 1) 2 + (c - Int.tdiv (s - 1) 2 + (s - 1))) 2 = c ↔
      (0 ≤ c ∨ s % 2 = 1) := by
  rcases tdiv_two_cases (s - 1) with ⟨h1, e1⟩ | ⟨h1, e1⟩
  · rw [e1]
    rcases tdiv_two_cases (c - (s - 1) / 2 + (c - (s - 1) / 2 + (s - 1))) with
      ⟨h2, e2⟩ | ⟨h2, e2⟩ <;>
      rw [e2] <;> constructor <;> intro h <;> omega
  · omega

/-- Two double clicks restore the thumbnail flag. -/
theorem toggle_twice_thumbnail (R : Int) (w : ImageWindow) (p q : QPoint)
    (he : w.editing_ = false) :
    ((w.mousePressEvent R (dblClick p)).mousePressEvent R (dblClick q)).thumbnail_ =
      w.thumbnail_ := by
  simp [ImageWindow.mousePressEvent, dblClick, he]

/-- In a non-editing state whose window has the size its mode prescribes and
whose full-view size is at least 1 x 1, two double clicks restore the window
geometry exactly when, on each axis, the sum of the two edge coordinates is
non-negative or the full-view dimension is odd. -/
theorem toggle_twice_geometry_iff (R : Int) (w : ImageWindow) (p q : QPoint)
    (he : w.editing_ = false)
    (hsize : w.geometry.size = if w.thumbnail_ then thumbnailSize R else fullSize R w)
    (hw : 1 ≤ (fullSize R w).wd) (hh : 1 ≤ (fullSize R w).ht) :
    ((w.mousePressEvent R (dblClick p)).mousePressEvent R (dblClick q)).geometry = w.geometry ↔
      ((0 ≤ w.geometry.x1 + w.geometry.x2 ∨ (fullSize R w).wd % 2 = 1) ∧
        (0 ≤ w.geometry.y1 + w.geometry.y2 ∨ (fullSize R w).ht % 2 = 1)) := by
  obtain ⟨pm, sz, sc, op, th, ed, ct, bg, em, ⟨x1, y1, x2, y2⟩, wo, cu, vi, cl, cb⟩ := w
  simp only at he
  subst he
  have ht : ∀ k : Int, Int.tdiv (125 + k * 2 - 1) 2 = 62 + k := by
    intro k
    have : (125 + k * 2 - 1 : Int) = 2 * (62 + k) := by ring
    rw [this, tdiv_two_mul]
  cases th
  · -- full view first: thumbnail on, then off
    simp only [fullSize, QSize.add, QSize.mul, ImageWindow.border, QRect.size, Bool.false_eq_true,
      if_false, QSize.mk.injEq] at hsize hw hh ⊢
    obtain ⟨hsw, hsh⟩ := hsize
    simp only [ImageWindow.mousePressEvent, dblClick, QRect.fromTopLeftSize, QRect.moveCenter,
      QRect.center, QSize.add, QSize.mul, ImageWindow.border, Bool.false_eq_true, if_false,
      and_self, if_true, Bool.not_false, Bool.not_true, zero_add, sub_zero, ht,
      QRect.mk.injEq, and_true]
    rw [← hsw] at hw ⊢
    rw [← hsh] at hh ⊢
    have e1 : ∀ c k : Int, Int.tdiv (c - (62 + k) + (c - (62 + k) + (125 + k * 2 - 1))) 2 = c := by
      intro c k
      have : c - (62 + k) + (c - (62 + k) + (125 + k * 2 - 1)) = 2 * c := by ring
      rw [this, tdiv_two_mul]
    simp only [e1]
    have ax := axis_full_first x1 x2 hw
    have ay := axis_full_first y1 y2 hh
    generalize Int.tdiv (x1 + x2) 2 - Int.tdiv (x2 - x1 + 1 - 1) 2 = u at ax ⊢
    generalize Int.tdiv (y1 + y2) 2 - Int.tdiv (y2 - y1 + 1 - 1) 2 = v at ay ⊢
    rw [← ax, ← ay]
    constructor
    · rintro ⟨h1, h2, _, _⟩
      exact ⟨h1, h2⟩
    · rintro ⟨h1, h2⟩
      exact ⟨h1, h2, by omega, by omega⟩
  · -- thumbnail first: thumbnail off, then on
    simp only [thumbnailSize, QSize.add, ImageWindow.border, QRect.size, if_true,
      QSize.mk.injEq] at hsize
    simp only [fullSize, QSize.add, QSize.mul, ImageWindow.border] at hw hh ⊢
    obtain ⟨hsw, hsh⟩ := hsize
    simp only [ImageWindow.mousePressEvent, dblClick, QRect.fromTopLeftSize, QRect.moveCenter,
      QRect.center, QSize.add, QSize.mul, ImageWindow.border, Bool.false_eq_true, if_false,
      and_self, if_true, Bool.not_false, Bool.not_true, zero_add, sub_zero, ht,
      QRect.mk.injEq, and_true]
    generalize qRound (↑sz.wd * sc) = a at hw ⊢
    generalize qRound (↑sz.ht * sc) = b at hh ⊢
    have hcx : Int.tdiv (x1 + x2) 2 = x1 + 62 + R := by
      have : x1 + x2 = 2 * (x1 + 62 + R) := by omega
      rw [this, tdiv_two_mul]
    have hcy : Int.tdiv (y1 + y2) 2 = y1 + 62 + R := by
      have : y1 + y2 = 2 * (y1 + 62 + R) := by omega
      rw [this, tdiv_two_mul]
    rw [hcx, hcy]
    have ax := axis_thumbnail_first (x1 + 62 + R) (a + R * 2) hw
    have ay := axis_thumbnail_first (y1 + 62 + R) (b + R * 2) hh
    generalize Int.tdiv (x1 + 62 + R - Int.tdiv (a + R * 2 - 1) 2 +
      (x1 + 62 + R - Int.tdiv (a + R * 2 - 1) 2 + (a + R * 2 - 1))) 2 = u at ax ⊢
    generalize Int.tdiv (y1 + 62 + R - Int.tdiv (b + R * 2 - 1) 2 +
      (y1 + 62 + R - Int.tdiv (b + R * 2 - 1) 2 + (b + R * 2 - 1))) 2 = v at ay ⊢
    constructor
    · rintro ⟨h1, h2, _, _⟩
      have hu : u = x1 + 62 + R := by omega
      have hv : v = y1 + 62 + R := by omega
      rcases ax.mp hu with h | h <;> rcases ay.mp hv with h' | h' <;>
        refine ⟨?_, ?_⟩ <;> first | (left; omega) | (right; assumption)
    · rintro ⟨h1, h2⟩
      have hu : u = x1 + 62 + R := ax.mpr (by rcases h1 with h | h; left; omega; right; exact h)
      have hv : v = y1 + 62 + R := ay.mpr (by rcases h2 with h | h; left; omega; right; exact h)
      refine ⟨?_, ?_, ?_, ?_⟩ <;> omega

/-- C3 amended: in a non-editing state whose window has the size its mode
prescribes (the thumbnail square when thumbnailed, the scaled natural size plus
border otherwise), whose full-view size is at least 1 x 1 and in which, on each
axis, left + right (top + bottom) is non-negative or the full-view dimension is
odd, two successive left-button double clicks leave the window geometry and the
thumbnail flag as they were. -/
theorem thumbnail_toggle_roundtrip (R : Int) (w : ImageWindow) (p q : QPoint)
    (he : w.editing_ = false)
    (hsize : w.geometry.size = if w.thumbnail_ then thumbnailSize R else fullSize R w)
    (hw : 1 ≤ (fullSize R w).wd) (hh : 1 ≤ (fullSize R w).ht)
    (hx : 0 ≤ w.geometry.x1 + w.geometry.x2 ∨ (fullSize R w).wd % 2 = 1)
    (hy : 0 ≤ w.geometry.y1 + w.geometry.y2 ∨ (fullSize R w).ht % 2 = 1) :
    ((w.mousePressEvent R (dblClick p)).mousePressEvent R (dblClick q)).geometry = w.geometry ∧
      ((w.mousePressEvent R (dblClick p)).mousePressEvent R (dblClick q)).thumbnail_ =
        w.thumbnail_ :=
  ⟨(toggle_twice_geometry_iff R w p q he hsize hw hh).mpr ⟨hx, hy⟩,
    toggle_twice_thumbnail R w p q he⟩

/-- C3 amended, at the sample window (non-negative coordinates, even
dimensions) and at the 221 x 121 window at (-520, -400) (negative coordinates,
odd dimensions). -/
theorem thumbnail_toggle_roundtrip_witness :
    (sampleWindow.editing_ = false ∧
      ((sampleWindow.mousePressEvent 10 (dblClick ⟨310, 210⟩)).mousePressEvent 10
        (dblClick ⟨310, 210⟩)).geometry = sampleWindow.geometry ∧
      ((sampleWindow.mousePressEvent 10 (dblClick ⟨310, 210⟩)).mousePressEvent 10
        (dblClick ⟨310, 210⟩)).thumbnail_ = sampleWindow.thumbnail_) ∧
    (sampleLeftOdd.editing_ = false ∧
      ((sampleLeftOdd.mousePressEvent 10 (dblClick ⟨-500, -390⟩)).mousePressEvent 10
        (dblClick ⟨-500, -390⟩)).geometry = ⟨-520, -400, -300, -280⟩ ∧
      ((sampleLeftOdd.mousePressEvent 10 (dblClick ⟨-500, -390⟩)).mousePressEvent 10
        (dblClick ⟨-500, -390⟩)).thumbnail_ = false) :=
  ⟨⟨rfl, thumbnail_toggle_roundtrip 10 sampleWindow ⟨310, 210⟩ ⟨310, 210⟩ rfl
      (by norm_num [fullSize, sampleWindow, QRect.size, QSize.add, QSize.mul,
        ImageWindow.border, qRound])
      (by norm_num [fullSize, sampleWindow, QSize.add, QSize.mul, ImageWindow.border, qRound])
      (by norm_num [fullSize, sampleWindow, QSize.add, QSize.mul, ImageWindow.border, qRound])
      (Or.inl (by decide)) (Or.inl (by decide))⟩,
    ⟨rfl, thumbnail_toggle_roundtrip 10 sampleLeftOdd ⟨-500, -390⟩ ⟨-500, -390⟩ rfl
      (by norm_num [fullSize, sampleLeftOdd, sampleWindow, QRect.size, QSize.add, QSize.mul,
        ImageWindow.border, qRound])
      (by norm_num [fullSize, sampleLeftOdd, sampleWindow, QSize.add, QSize.mul,
        ImageWindow.border, qRound])
      (by norm_num [fullSize, sampleLeftOdd, sampleWindow, QSize.add, QSize.mul,
        ImageWindow.border, qRound])
      (Or.inr (by norm_num [fullSize, sampleLeftOdd, sampleWindow, QSize.add, QSize.mul,
        ImageWindow.border, qRound]))
      (Or.inr (by norm_num [fullSize, sampleLeftOdd, sampleWindow, QSize.add, QSize.mul,
        ImageWindow.border, qRound]))⟩⟩

/-! ## Drag and drop -/

/-- The drag is accepted exactly when there is a URL and the suffix of the
first URL's file name occurs somewhere in the allow-list string. -/
theorem dragEnterEvent_iff (urls : List String) :
    ImageWindow.dragEnterEvent urls = true ↔
      ∃ u rest, urls = u :: rest ∧
        QString_contains (QFileInfo_suffix (QUrl_fileName u))
          ImageWindow.allowList.toList = true := by
  cases urls with
  | nil => simp [ImageWindow.dragEnterEvent]
  | cons u rest => simp [ImageWindow.dragEnterEvent]

/-- The eight listed suffixes are accepted. -/
theorem dragEnterEvent_accepts_listed :
    ImageWindow.dragEnterEvent ["/home/u/a.jpg"] = true ∧
      ImageWindow.dragEnterEvent ["/home/u/a.jpeg"] = true ∧
      ImageWindow.dragEnterEvent ["/home/u/a.png"] = true ∧
      ImageWindow.dragEnterEvent ["/home/u/a.bmp"] = true ∧
      ImageWindow.dragEnterEvent ["/home/u/a.JPG"] = true ∧
      ImageWindow.dragEnterEvent ["/home/u/a.JPEG"] = true ∧
      ImageWindow.dragEnterEvent ["/home/u/a.PNG"] = true ∧
      ImageWindow.dragEnterEvent ["/home/u/a.BMP"] = true ∧
      ImageWindow.dragEnterEvent ["/home/u/a.txt"] = false ∧
      ImageWindow.dragEnterEvent [] = false := by
  decide

/-- C5 fails on the code: the suffix test is a substring test on the joined
allow-list, so a file name without any suffix (`README`) and one whose suffix
is a fragment of a listed suffix (`notes.g`, `scan.jp`) are accepted. -/
theorem dragEnterEvent_accepts_unlisted :
    ImageWindow.dragEnterEvent ["/home/u/README"] = true ∧
      QFileInfo_suffix (QUrl_fileName "/home/u/README") = [] ∧
      ImageWindow.dragEnterEvent ["/home/u/notes.g"] = true ∧
      QFileInfo_suffix (QUrl_fileName "/home/u/notes.g") = ['g'] ∧
      ImageWindow.dragEnterEvent ["/home/u/scan.jp"] = true := by
  decide

end Capturer
